import Mathlib

set_option autoImplicit false

/-!
Shallow embedding of `include/rust_types.hxx` (the `ffi_types` C++ header of
the `rust-ffi_types` repository).

Modelling conventions:
* Pointers are natural-number addresses: `0` models the null pointer
  and `1` models the reserved sentinel `EMPTY_SLICE_BEGIN(T)`
  (`reinterpret_cast<T*>(1)`). Element types are phantom for every property
  considered here: all the header's ownership bookkeeping manipulates only the
  raw `(pointer, length)` fields, never element values.
* Calls to the external drop collaborator `_drop()` are modelled as explicit
  event lists: an operation that may drop returns, besides its result and the
  updated handles, the list of `_drop` invocations it performed (each event
  records the pointer, or pointer/length pair, handed to `_drop`). An
  operation whose C++ body contains no `_drop` call site returns `[]`.
* `const` methods cannot mutate their receiver; where a claim is about the
  receiver being left unchanged, the model still threads the receiver through
  so the frame condition is an explicit equation.
-/

namespace ffi_types

/-- Model of `_wrap_null`: `return ptr ? ptr : reinterpret_cast<T*>(1);` —
replaces null by the sentinel address `1`, keeps everything else. -/
def _wrap_null (ptr : Nat) : Nat :=
  if ptr = 0 then 1 else ptr

/-- Model of `_SliceRange<T>` (just the `{_data, _size}` aggregate). -/
structure _SliceRange where
  _data : Nat
  _size : Nat
  deriving DecidableEq

/-- Model of `OptionBox<T>`: one raw pointer field `_ptr` (`0` = null). -/
structure OptionBox where
  _ptr : Nat
  deriving DecidableEq

/-- `OptionBox::get()` returns the held pointer. -/
def OptionBox.get (b : OptionBox) : Nat := b._ptr

/-- Drops performed by `~OptionBox()`: `if (this->get()) { this->_drop(); }`. -/
def OptionBox.dtorDrops (b : OptionBox) : List Nat :=
  if b.get = 0 then [] else [b.get]

/-- `OptionBox::release()`: returns the held pointer and sets `_ptr = 0`. -/
def OptionBox.release (b : OptionBox) : Nat × OptionBox :=
  (b._ptr, ⟨0⟩)

/-- `OptionBox::reset(p)`: drops the currently held value when non-null, then
stores `p`. Returns the updated box and the drop events. -/
def OptionBox.reset (b : OptionBox) (p : Nat) : OptionBox × List Nat :=
  (⟨p⟩, if b.get = 0 then [] else [b.get])

/-- `OptionBox(OptionBox&& b) : _ptr(b.release())`. Returns
(new box, moved-from source). -/
def OptionBox.moveCtor (b : OptionBox) : OptionBox × OptionBox :=
  let r := b.release
  (⟨r.1⟩, r.2)

/-- `OptionBox::operator=(OptionBox&& b)`: `this->_ptr = b.release();` — the
destination's previous pointer is overwritten with no `_drop` call site.
Returns (new destination, moved-from source, drop events). -/
def OptionBox.moveAssign (dst src : OptionBox) : OptionBox × OptionBox × List Nat :=
  let r := src.release
  (⟨r.1⟩, r.2, [])

/-- Model of `CBox<T>`: the C-ABI boundary twin of `OptionBox<T>`. -/
structure CBox where
  _ptr : Nat
  deriving DecidableEq

/-- `CBox<T>::from(OptionBox<T>&&)` (and the non-MSVC move constructor):
`_ptr(box.release())`. Returns the new `CBox` and the moved-from source. -/
def CBox.from' (box : OptionBox) : CBox × OptionBox :=
  let r := box.release
  (⟨r.1⟩, r.2)

/-- `OptionBox<T>::into()`: `return CBox<T>::from(std::move(*this));`. -/
def OptionBox.into (b : OptionBox) : CBox × OptionBox :=
  CBox.from' b

/-- `CBox<T>::operator()()`:
`auto box = OptionBox<T>(nullptr); box.reset(this->_ptr); this->_ptr = nullptr;
return box;`. Returns (owned box, `this` afterwards, drop events performed). -/
def CBox.call (c : CBox) : OptionBox × CBox × List Nat :=
  let box : OptionBox := ⟨0⟩
  let r := box.reset c._ptr
  (r.1, ⟨0⟩, r.2)

/-- `CBox<T>::release()`: returns the pointer and nulls `_ptr`. -/
def CBox.release (c : CBox) : Nat × CBox :=
  (c._ptr, ⟨0⟩)

/-- Model of `MutSliceRef<T>`: borrowed `(pointer, length)` pair. -/
structure MutSliceRef where
  _data : Nat
  _size : Nat
  deriving DecidableEq

/-- `MutSliceRef()` default constructor: `_data(EMPTY_SLICE_BEGIN(T)), _size(0)`. -/
def MutSliceRef.defaultCtor : MutSliceRef := ⟨1, 0⟩

/-- `MutSliceRef(T* head, usize size) : _data(_wrap_null(head)), _size(size)`. -/
def MutSliceRef.fromRaw (head : Nat) (size : Nat) : MutSliceRef :=
  ⟨_wrap_null head, size⟩

/-- `_SliceInterface::size()`. -/
def MutSliceRef.size (s : MutSliceRef) : Nat := s._size

/-- `_SliceInterface::empty()`: `size() == 0`. -/
def MutSliceRef.empty (s : MutSliceRef) : Bool := s.size == 0

/-- The debug assertion guarding `_SliceInterface::operator[]`:
`assert(idx < this->size())`. -/
def MutSliceRef.assertIndexOk (s : MutSliceRef) (idx : Nat) : Bool :=
  decide (idx < s.size)

/-- The address read by `_SliceInterface::operator[]`: `this->data()[idx]`,
i.e. element offset `idx` from `_data` (in element units). -/
def MutSliceRef.indexAddr (s : MutSliceRef) (idx : Nat) : Nat :=
  s._data + idx

/-- Model of `CMutSliceRef<T>`. -/
structure CMutSliceRef where
  _data : Nat
  _size : Nat
  deriving DecidableEq

/-- `CMutSliceRef<T>::from(const MutSliceRef<T>&)`: copies `_data`/`_size`. -/
def CMutSliceRef.from' (slice : MutSliceRef) : CMutSliceRef :=
  ⟨slice._data, slice._size⟩

/-- `MutSliceRef<T>::into() const`: `return CMutSliceRef<T>::from(*this);` —
a `const` method; the receiver is returned unchanged to state the frame. -/
def MutSliceRef.into (s : MutSliceRef) : CMutSliceRef × MutSliceRef :=
  (CMutSliceRef.from' s, s)

/-- `CMutSliceRef<T>::operator()()`: `return MutSliceRef<T>(this->_data, this->_size);`. -/
def CMutSliceRef.call (c : CMutSliceRef) : MutSliceRef :=
  MutSliceRef.fromRaw c._data c._size

/-- Model of `SliceRef<T>` (read-only borrowed slice; in C++ it derives from
`MutSliceRef<const T>` and adds no fields). -/
structure SliceRef where
  _data : Nat
  _size : Nat
  deriving DecidableEq

/-- `SliceRef(const T* head, usize size)`: delegates to the
`MutSliceRef<const T>` constructor, hence applies `_wrap_null`. -/
def SliceRef.fromRaw (head : Nat) (size : Nat) : SliceRef :=
  ⟨_wrap_null head, size⟩

/-- `_SliceInterface::size()` for `SliceRef`. -/
def SliceRef.size (s : SliceRef) : Nat := s._size

/-- `_SliceInterface::empty()` for `SliceRef`. -/
def SliceRef.empty (s : SliceRef) : Bool := s.size == 0

/-- Model of `CSliceRef<T>`. -/
structure CSliceRef where
  _data : Nat
  _size : Nat
  deriving DecidableEq

/-- `CSliceRef<T>::from(const SliceRef<T>&)`: copies `_data`/`_size`. -/
def CSliceRef.from' (slice : SliceRef) : CSliceRef :=
  ⟨slice._data, slice._size⟩

/-- Model of `CByteSliceRef` (the MSVC-compatible stand-in for
`CSliceRef<uint8_t>`). -/
structure CByteSliceRef where
  _data : Nat
  _size : Nat
  deriving DecidableEq

/-- `CByteSliceRef::from(const ByteSliceRef&)`: copies `_data`/`_size`. -/
def CByteSliceRef.from' (slice : SliceRef) : CByteSliceRef :=
  ⟨slice._data, slice._size⟩

/-- `SliceRef<T>::into() const` for `T ≠ uint8_t`: `CSliceRef<T>::from(*this)`;
`const`, receiver threaded through unchanged. -/
def SliceRef.into (s : SliceRef) : CSliceRef × SliceRef :=
  (CSliceRef.from' s, s)

/-- `SliceRef<uint8_t>::into() const` (the `ByteSliceRef` branch of the
`constexpr` dispatch): `CByteSliceRef::from(*this)`. -/
def SliceRef.intoBytes (s : SliceRef) : CByteSliceRef × SliceRef :=
  (CByteSliceRef.from' s, s)

/-- Model of `BoxedSlice<T>` (owned slice; derives from `MutSliceRef<T>`). -/
structure BoxedSlice where
  _data : Nat
  _size : Nat
  deriving DecidableEq

/-- `BoxedSlice(std::nullptr_t)`: delegates to `MutSliceRef<T>()`,
i.e. `(sentinel, 0)`. -/
def BoxedSlice.fromNullptr : BoxedSlice := ⟨1, 0⟩

/-- `_SliceInterface::size()` for `BoxedSlice`. -/
def BoxedSlice.size (s : BoxedSlice) : Nat := s._size

/-- `_SliceInterface::empty()` for `BoxedSlice`. -/
def BoxedSlice.empty (s : BoxedSlice) : Bool := s.size == 0

/-- `_SliceInterface::get()`: `return {data(), size()};`. -/
def BoxedSlice.get (s : BoxedSlice) : _SliceRange :=
  ⟨s._data, s._size⟩

/-- Drops performed by `~BoxedSlice()`: `if (this->_size > 0) { this->_drop(); }`;
`_drop` hands the full `(_data, _size)` range to the Rust-side free. -/
def BoxedSlice.dtorDrops (s : BoxedSlice) : List (Nat × Nat) :=
  if s._size > 0 then [(s._data, s._size)] else []

/-- `BoxedSlice::release()`: returns `this->get()` and resets the fields to
`(EMPTY_SLICE_BEGIN(T), 0)`. -/
def BoxedSlice.release (s : BoxedSlice) : _SliceRange × BoxedSlice :=
  (s.get, ⟨1, 0⟩)

/-- `BoxedSlice::reset(_SliceRange<T> s)`: drops the current range when
`_size > 0`, then stores the new fields. -/
def BoxedSlice.reset (s : BoxedSlice) (r : _SliceRange) : BoxedSlice × List (Nat × Nat) :=
  (⟨r._data, r._size⟩, if s._size > 0 then [(s._data, s._size)] else [])

/-- `BoxedSlice(BoxedSlice&& s) : MutSliceRef<T>(s)` then
`s._data = EMPTY_SLICE_BEGIN(T); s._size = 0;`. Returns (new, moved-from). -/
def BoxedSlice.moveCtor (s : BoxedSlice) : BoxedSlice × BoxedSlice :=
  (⟨s._data, s._size⟩, ⟨1, 0⟩)

/-- `BoxedSlice::operator=(BoxedSlice&& b)`: `this->reset(b.release());`.
Returns (new destination, moved-from source, drop events). -/
def BoxedSlice.moveAssign (dst src : BoxedSlice) :
    BoxedSlice × BoxedSlice × List (Nat × Nat) :=
  let r := src.release
  let d := dst.reset r.1
  (d.1, r.2, d.2)

/-- Model of `CBoxedSlice<T>`: the C-ABI boundary twin of `BoxedSlice<T>`. -/
structure CBoxedSlice where
  _data : Nat
  _size : Nat
  deriving DecidableEq

/-- `CBoxedSlice<T>::from(BoxedSlice<T>&&)`:
`auto r = slice.release(); this->_data = r._data; this->_size = r._size;` —
the source is cleared through `release()`. Returns (twin, moved-from source). -/
def CBoxedSlice.from' (slice : BoxedSlice) : CBoxedSlice × BoxedSlice :=
  let r := slice.release
  (⟨r.1._data, r.1._size⟩, r.2)

/-- `BoxedSlice<T>::into()`: `return CBoxedSlice<T>::from(std::move(*this));`. -/
def BoxedSlice.into (s : BoxedSlice) : CBoxedSlice × BoxedSlice :=
  CBoxedSlice.from' s

/-- `CBoxedSlice<T>::get()`. -/
def CBoxedSlice.get (c : CBoxedSlice) : _SliceRange :=
  ⟨c._data, c._size⟩

/-- `CBoxedSlice<T>::release()`: returns the range and resets the twin to
`(EMPTY_SLICE_BEGIN(T), 0)`. -/
def CBoxedSlice.release (c : CBoxedSlice) : _SliceRange × CBoxedSlice :=
  (c.get, ⟨1, 0⟩)

/-- `CBoxedSlice<T>::operator()()`:
`auto slice = BoxedSlice<T>(nullptr); auto r = this->release();
slice._data = r._data; slice._size = r._size; return slice;` — plain field
assignment, no `_drop` call site. Returns (owned slice, `this` afterwards,
drop events). -/
def CBoxedSlice.call (c : CBoxedSlice) : BoxedSlice × CBoxedSlice × List (Nat × Nat) :=
  let slice := BoxedSlice.fromNullptr
  let r := c.release
  ({ slice with _data := r.1._data, _size := r.1._size }, r.2, [])

/-- `using BoxedByteSlice = BoxedSlice<uint8_t>;`. -/
abbrev BoxedByteSlice := BoxedSlice

/-- Model of `CBoxedByteSlice` (the MSVC-compatible stand-in for
`CBoxedSlice<uint8_t>`). -/
structure CBoxedByteSlice where
  _data : Nat
  _size : Nat
  deriving DecidableEq

/-- `CBoxedByteSlice::from(BoxedByteSlice&&)` as written in the source:
`this->_data = boxed._data; this->_size = boxed._size;` — it copies the
fields and, unlike `CBoxedSlice<T>::from` and `CBoxedStr::from`, never calls
`boxed.release()`, so the moved-from source is returned **unchanged**. -/
def CBoxedByteSlice.from' (boxed : BoxedByteSlice) : CBoxedByteSlice × BoxedByteSlice :=
  (⟨boxed._data, boxed._size⟩, boxed)

/-- `CBoxedByteSlice::get()`. -/
def CBoxedByteSlice.get (c : CBoxedByteSlice) : _SliceRange :=
  ⟨c._data, c._size⟩

/-- `CBoxedByteSlice::release()`. -/
def CBoxedByteSlice.release (c : CBoxedByteSlice) : _SliceRange × CBoxedByteSlice :=
  (c.get, ⟨1, 0⟩)

/-- `CBoxedByteSlice::operator()()`: same field-copy shape as
`CBoxedSlice<T>::operator()`, no `_drop` call site. -/
def CBoxedByteSlice.call (c : CBoxedByteSlice) :
    BoxedByteSlice × CBoxedByteSlice × List (Nat × Nat) :=
  let slice := BoxedSlice.fromNullptr
  let r := c.release
  ({ slice with _data := r.1._data, _size := r.1._size }, r.2, [])

/-- Length of a null-terminated character buffer: the number of characters
before the first NUL, as computed by the `std::string_view(const char*)`
constructor (strlen) used by `CharStrRef(const char*)`. -/
def cstrlen : List Char → Nat
  | [] => 0
  | c :: rest => if c = Char.ofNat 0 then 0 else cstrlen rest + 1

/-- Model of `CharStrRef`: unchecked character view `(const char* _data, usize _size)`. -/
structure CharStrRef where
  _data : Nat
  _size : Nat
  deriving DecidableEq

/-- `CharStrRef(const char* head, usize size) : _data(_wrap_null(head)), _size(size)`. -/
def CharStrRef.fromRaw (head : Nat) (size : Nat) : CharStrRef :=
  ⟨_wrap_null head, size⟩

/-- `CharStrRef(std::nullptr_t) : _data(EMPTY_SLICE_BEGIN(const char)), _size(0)`. -/
def CharStrRef.fromNullptr : CharStrRef := ⟨1, 0⟩

/-- `CharStrRef(const char* s) : CharStrRef(std::string_view(s))`: the
`string_view` carries `(s, strlen(s))`, and the range constructor applies
`_wrap_null` to the data pointer. `buf` is the memory content starting at
address `s`, up to and including a NUL terminator. -/
def CharStrRef.fromCString (s : Nat) (buf : List Char) : CharStrRef :=
  ⟨_wrap_null s, cstrlen buf⟩

/-- `CharStrRef::size()`. -/
def CharStrRef.size (s : CharStrRef) : Nat := s._size

/-- `CharStrRef::empty()`: `size() == 0`. -/
def CharStrRef.empty (s : CharStrRef) : Bool := s.size == 0

/-- The debug assertion guarding `CharStrRef::operator[]`:
`assert(idx < this->size())`. -/
def CharStrRef.assertIndexOk (s : CharStrRef) (idx : Nat) : Bool :=
  decide (idx < s.size)

/-- The address read by `CharStrRef::operator[]`: `this->data()[idx]`. -/
def CharStrRef.indexAddr (s : CharStrRef) (idx : Nat) : Nat :=
  s._data + idx

/-- `CharStrRef::view()`: `std::string_view(this->data(), this->size())` — the
character sequence read from memory `mem` at `_data .. _data + _size`. -/
def CharStrRef.view (s : CharStrRef) (mem : Nat → Char) : List Char :=
  (List.range s.size).map fun i => mem (s._data + i)

/-- Model of `StrRef` (UTF-8-asserted view; derives from `CharStrRef`, no
extra fields). -/
structure StrRef where
  _data : Nat
  _size : Nat
  deriving DecidableEq

/-- The `CharStrRef` base subobject of a `StrRef`. -/
def StrRef.toCharStrRef (s : StrRef) : CharStrRef := ⟨s._data, s._size⟩

/-- `StrRef(std::nullptr_t) : CharStrRef(EMPTY_SLICE_BEGIN(const char), 0)`. -/
def StrRef.fromNullptr : StrRef := ⟨1, 0⟩

/-- `size()` inherited from `CharStrRef`. -/
def StrRef.size (s : StrRef) : Nat := s._size

/-- `view()` inherited from `CharStrRef`. -/
def StrRef.view (s : StrRef) (mem : Nat → Char) : List Char :=
  s.toCharStrRef.view mem

/-- Model of `BoxedStr` (owned UTF-8 string; derives from `StrRef`). -/
structure BoxedStr where
  _data : Nat
  _size : Nat
  deriving DecidableEq

/-- `BoxedStr(std::nullptr_t) : StrRef(nullptr)`, i.e. `(sentinel, 0)`. -/
def BoxedStr.fromNullptr : BoxedStr := ⟨1, 0⟩

/-- `size()` inherited from `CharStrRef`. -/
def BoxedStr.size (s : BoxedStr) : Nat := s._size

/-- `empty()` inherited from `CharStrRef`. -/
def BoxedStr.empty (s : BoxedStr) : Bool := s.size == 0

/-- `CharStrRef::get()`: `return {data(), size()};`. -/
def BoxedStr.get (s : BoxedStr) : _SliceRange :=
  ⟨s._data, s._size⟩

/-- Drops performed by `~BoxedStr()`: `if (this->_size > 0) { this->_drop(); }`. -/
def BoxedStr.dtorDrops (s : BoxedStr) : List (Nat × Nat) :=
  if s._size > 0 then [(s._data, s._size)] else []

/-- `BoxedStr::release()`: returns `this->get()` and resets the fields to
`(EMPTY_SLICE_BEGIN(const char), 0)`. -/
def BoxedStr.release (s : BoxedStr) : _SliceRange × BoxedStr :=
  (s.get, ⟨1, 0⟩)

/-- `BoxedStr::reset(_SliceRange<const char> s)`: drops the current range when
`_size > 0`, then stores the new fields. -/
def BoxedStr.reset (s : BoxedStr) (r : _SliceRange) : BoxedStr × List (Nat × Nat) :=
  (⟨r._data, r._size⟩, if s._size > 0 then [(s._data, s._size)] else [])

/-- `BoxedStr(BoxedStr&& s) : StrRef(s)` then
`s._data = EMPTY_SLICE_BEGIN(const char); s._size = 0;`. -/
def BoxedStr.moveCtor (s : BoxedStr) : BoxedStr × BoxedStr :=
  (⟨s._data, s._size⟩, ⟨1, 0⟩)

/-- `BoxedStr::operator=(BoxedStr&& b)`: `this->reset(b.release());`. -/
def BoxedStr.moveAssign (dst src : BoxedStr) : BoxedStr × BoxedStr × List (Nat × Nat) :=
  let r := src.release
  let d := dst.reset r.1
  (d.1, r.2, d.2)

/-- Model of `CBoxedStr`: the C-ABI boundary twin of `BoxedStr`. -/
structure CBoxedStr where
  _data : Nat
  _size : Nat
  deriving DecidableEq

/-- `CBoxedStr::from(BoxedStr&&)`: `auto r = str.release();
this->_data = r._data; this->_size = r._size;` — clears the source. -/
def CBoxedStr.from' (str : BoxedStr) : CBoxedStr × BoxedStr :=
  let r := str.release
  (⟨r.1._data, r.1._size⟩, r.2)

/-- `CBoxedStr::release()`: returns the range and resets the twin to
`(EMPTY_SLICE_BEGIN(const char), 0)`. -/
def CBoxedStr.release (c : CBoxedStr) : _SliceRange × CBoxedStr :=
  (⟨c._data, c._size⟩, ⟨1, 0⟩)

/-- `CBoxedStr::operator()()`:
`auto slice = BoxedStr(nullptr); auto r = this->release();
slice._data = r._data; slice._size = r._size; return slice;` — plain field
assignment, no `_drop` call site. -/
def CBoxedStr.call (c : CBoxedStr) : BoxedStr × CBoxedStr × List (Nat × Nat) :=
  let slice := BoxedStr.fromNullptr
  let r := c.release
  ({ slice with _data := r.1._data, _size := r.1._size }, r.2, [])

/-- Concrete memory for the scenario claims: the 5-byte literal `"hello"`
with its NUL terminator, placed at address 100. -/
def memHello : Nat → Char := fun a =>
  if a = 100 then 'h'
  else if a = 101 then 'e'
  else if a = 102 then 'l'
  else if a = 103 then 'l'
  else if a = 104 then 'o'
  else Char.ofNat 0

/-- The buffer content at address 100: `"hello"` plus the NUL terminator. -/
def helloBuf : List Char := ['h', 'e', 'l', 'l', 'o', Char.ofNat 0]

/-- C1: the claim says every ownership-transferring operation — in particular
constructing a `CBoxedByteSlice` from a `BoxedByteSlice` — clears the source
handle, making a second drop on the same pointer unreachable. Evaluating the
code at the failing input `BoxedByteSlice{_data = 100, _size = 5}`:
`CBoxedByteSlice::from` returns a twin carrying `(100, 5)` while leaving the
source completely unchanged, so the source's destructor still emits a `_drop`
of the very range the twin now carries — a reachable double free, contradicting
the claim (and the `release()`-based behaviour of `CBoxedSlice<T>::from` and
`CBoxedStr::from`, of which `CBoxedByteSlice` is documented to be the
MSVC-compatible stand-in). -/
theorem C1_cboxedByteSlice_from_retains_source :
    (CBoxedByteSlice.from' ⟨100, 5⟩).2 = (⟨100, 5⟩ : BoxedByteSlice)
    ∧ BoxedSlice.dtorDrops (CBoxedByteSlice.from' ⟨100, 5⟩).2 = [(100, 5)]
    ∧ (CBoxedByteSlice.from' ⟨100, 5⟩).1 = (⟨100, 5⟩ : CBoxedByteSlice) := by
  exact ⟨rfl, rfl, rfl⟩

/-- C2: for every owned slice `⟨d, n⟩` and string `⟨e, m⟩`, converting to the
boundary twin (`BoxedSlice::into` / `CBoxedStr::from`) and back via
`operator()` yields an owned handle with the original `_data`/`_size`, with no
`_drop` event anywhere on the round trip (the moved-from source is cleared, so
even its destructor emits nothing). -/
theorem C2_boundary_roundtrip_identity (d n e m : Nat) :
    ((BoxedSlice.into ⟨d, n⟩).1.call).1 = (⟨d, n⟩ : BoxedSlice)
    ∧ ((BoxedSlice.into ⟨d, n⟩).1.call).2.2 = []
    ∧ BoxedSlice.dtorDrops (BoxedSlice.into ⟨d, n⟩).2 = []
    ∧ ((CBoxedStr.from' ⟨e, m⟩).1.call).1 = (⟨e, m⟩ : BoxedStr)
    ∧ ((CBoxedStr.from' ⟨e, m⟩).1.call).2.2 = []
    ∧ BoxedStr.dtorDrops (CBoxedStr.from' ⟨e, m⟩).2 = [] := by
  exact ⟨rfl, rfl, rfl, rfl, rfl, rfl⟩

/-- C3: for every owned handle (`OptionBox`, `BoxedSlice`, `BoxedStr`),
`release()` returns exactly the pointer (or pointer/length range) held
immediately before the call, and the destructor of the handle afterwards
performs no drop. -/
theorem C3_release_returns_prior_state (b : OptionBox) (s : BoxedSlice) (t : BoxedStr) :
    b.release.1 = b._ptr ∧ OptionBox.dtorDrops b.release.2 = []
    ∧ s.release.1 = s.get ∧ BoxedSlice.dtorDrops s.release.2 = []
    ∧ t.release.1 = t.get ∧ BoxedStr.dtorDrops t.release.2 = [] := by
  exact ⟨rfl, rfl, rfl, rfl, rfl, rfl⟩

/-- C4: move construction of `OptionBox`, `BoxedSlice` and `BoxedStr` hands the
exact prior pointer/length to the new handle, leaves the source in the empty
state (null for boxes, sentinel/zero-length for slices and strings), and the
source's destructor afterwards performs no drop. -/
theorem C4_move_ctor_transfers_and_clears (b : OptionBox) (s : BoxedSlice) (t : BoxedStr) :
    (OptionBox.moveCtor b).1 = b ∧ (OptionBox.moveCtor b).2 = (⟨0⟩ : OptionBox)
    ∧ OptionBox.dtorDrops (OptionBox.moveCtor b).2 = []
    ∧ (BoxedSlice.moveCtor s).1 = s ∧ (BoxedSlice.moveCtor s).2 = (⟨1, 0⟩ : BoxedSlice)
    ∧ BoxedSlice.dtorDrops (BoxedSlice.moveCtor s).2 = []
    ∧ (BoxedStr.moveCtor t).1 = t ∧ (BoxedStr.moveCtor t).2 = (⟨1, 0⟩ : BoxedStr)
    ∧ BoxedStr.dtorDrops (BoxedStr.moveCtor t).2 = [] := by
  exact ⟨rfl, rfl, rfl, rfl, rfl, rfl, rfl, rfl, rfl⟩

/-- C5: constructing any borrowed slice (`MutSliceRef`, `SliceRef`,
`CharStrRef`) with length 0 from a null pointer, or any owned slice/string
(`BoxedSlice`, `BoxedStr`) from `nullptr`, yields a handle whose data pointer
is the non-null sentinel (address 1) with `empty()` true; and the null string
view sentinel `StrRef(nullptr)` has `size() == 0` and a view equal to the empty
string and to the view of the explicit `(sentinel, 0)` pair, over any memory. -/
theorem C5_null_empty_sentinel (mem : Nat → Char) :
    (MutSliceRef.fromRaw 0 0)._data = 1 ∧ (MutSliceRef.fromRaw 0 0).empty = true
    ∧ (SliceRef.fromRaw 0 0)._data = 1 ∧ (SliceRef.fromRaw 0 0).empty = true
    ∧ (CharStrRef.fromRaw 0 0)._data = 1 ∧ (CharStrRef.fromRaw 0 0).empty = true
    ∧ BoxedSlice.fromNullptr._data = 1 ∧ BoxedSlice.fromNullptr.empty = true
    ∧ BoxedStr.fromNullptr._data = 1 ∧ BoxedStr.fromNullptr.empty = true
    ∧ StrRef.fromNullptr.size = 0
    ∧ StrRef.fromNullptr.view mem = []
    ∧ StrRef.fromNullptr.view mem = (CharStrRef.fromRaw 1 0).view mem := by
  exact ⟨rfl, rfl, rfl, rfl, rfl, rfl, rfl, rfl, rfl, rfl, rfl, rfl, rfl⟩

/-- C6: for borrowed slices, `into()` is non-destructive and repeatable: the
source's `_data`/`_size` are unchanged and repeating the conversion yields a
boundary value carrying the same pair (shown for `MutSliceRef::into`,
`SliceRef::into` and the `ByteSliceRef`/`CByteSliceRef` branch). -/
theorem C6_borrowed_into_nondestructive (s : MutSliceRef) (r : SliceRef) :
    s.into.2 = s ∧ s.into.1._data = s._data ∧ s.into.1._size = s._size
    ∧ (s.into.2.into).1 = s.into.1
    ∧ r.into.2 = r ∧ r.into.1._data = r._data ∧ r.into.1._size = r._size
    ∧ (r.into.2.into).1 = r.into.1
    ∧ r.intoBytes.2 = r ∧ r.intoBytes.1._data = r._data ∧ r.intoBytes.1._size = r._size
    ∧ (r.intoBytes.2.intoBytes).1 = r.intoBytes.1 := by
  exact ⟨rfl, rfl, rfl, rfl, rfl, rfl, rfl, rfl, rfl, rfl, rfl, rfl⟩

/-- C7: indexed access is guarded by the debug assertion `idx < size()`: under
the precondition `idx < size()` the assertion holds and the accessed address
lies inside the stored `[data, data + size)` range; for `idx ≥ size()` the
assertion fails (contract violation). Shown for the shared `_SliceInterface`
(via `MutSliceRef`) and for `CharStrRef`. -/
theorem C7_index_assert_guard (s : MutSliceRef) (c : CharStrRef) (i j : Nat) :
    (i < s.size → s.assertIndexOk i = true
      ∧ s._data ≤ s.indexAddr i ∧ s.indexAddr i < s._data + s.size)
    ∧ (s.size ≤ i → s.assertIndexOk i = false)
    ∧ (j < c.size → c.assertIndexOk j = true
      ∧ c._data ≤ c.indexAddr j ∧ c.indexAddr j < c._data + c.size)
    ∧ (c.size ≤ j → c.assertIndexOk j = false) := by
  refine ⟨fun h => ⟨?_, ?_, ?_⟩, fun h => ?_, fun h => ⟨?_, ?_, ?_⟩, fun h => ?_⟩ <;>
    simp only [MutSliceRef.assertIndexOk, CharStrRef.assertIndexOk,
      MutSliceRef.indexAddr, CharStrRef.indexAddr, MutSliceRef.size, CharStrRef.size,
      decide_eq_true_eq, decide_eq_false_iff_not, Nat.not_lt] at * <;>
    omega

/-- C7 witness: the guard theorem applied at the concrete slice `(5, 3)` with
in-range index 2, and at the concrete character view `(7, 2)` with
out-of-range index 4. -/
theorem C7_index_assert_guard_witness :
    (MutSliceRef.assertIndexOk ⟨5, 3⟩ 2 = true
      ∧ MutSliceRef._data ⟨5, 3⟩ ≤ MutSliceRef.indexAddr ⟨5, 3⟩ 2
      ∧ MutSliceRef.indexAddr ⟨5, 3⟩ 2 < MutSliceRef._data ⟨5, 3⟩ + MutSliceRef.size ⟨5, 3⟩)
    ∧ CharStrRef.assertIndexOk ⟨7, 2⟩ 4 = false :=
  ⟨(C7_index_assert_guard ⟨5, 3⟩ ⟨7, 2⟩ 2 4).1 (by decide),
   (C7_index_assert_guard ⟨5, 3⟩ ⟨7, 2⟩ 2 4).2.2.2 (by decide)⟩

/-- C8: the `CharStrRef` built from the 5-byte null-terminated literal
`"hello"` (placed at address 100) has `size() == 5` and `view() == "hello"`;
the `CharStrRef` built from the same pointer restricted to length 3 has
`view() == "hel"`. -/
theorem C8_hello_view_scenarios :
    (CharStrRef.fromCString 100 helloBuf).size = 5
    ∧ (CharStrRef.fromCString 100 helloBuf).view memHello = "hello".data
    ∧ (CharStrRef.fromRaw 100 3).view memHello = "hel".data := by
  refine ⟨?_, ?_, ?_⟩ <;> decide

/-- C9: for each boundary handle (`CBox`, `CBoxedSlice`, `CBoxedStr`),
`operator()` clears the handle to the empty state (null pointer, or sentinel
with zero length) and performs no drop itself, so a second `operator()` on the
same handle yields an empty owned handle whose destructor is a no-op. -/
theorem C9_boundary_call_clears_no_drop (c : CBox) (s : CBoxedSlice) (t : CBoxedStr) :
    c.call.2.1 = (⟨0⟩ : CBox) ∧ c.call.2.2 = []
    ∧ (c.call.2.1.call).1 = (⟨0⟩ : OptionBox)
    ∧ OptionBox.dtorDrops (c.call.2.1.call).1 = []
    ∧ s.call.2.1 = (⟨1, 0⟩ : CBoxedSlice) ∧ s.call.2.2 = []
    ∧ (s.call.2.1.call).1 = (⟨1, 0⟩ : BoxedSlice)
    ∧ BoxedSlice.dtorDrops (s.call.2.1.call).1 = []
    ∧ t.call.2.1 = (⟨1, 0⟩ : CBoxedStr) ∧ t.call.2.2 = []
    ∧ (t.call.2.1.call).1 = (⟨1, 0⟩ : BoxedStr)
    ∧ BoxedStr.dtorDrops (t.call.2.1.call).1 = [] := by
  exact ⟨rfl, rfl, rfl, rfl, rfl, rfl, rfl, rfl, rfl, rfl, rfl, rfl⟩

/-- C10: move-assignment of `OptionBox` overwrites the destination's pointer
with no `_drop` call at all (even when the destination held a non-null value),
while move-assignment of `BoxedSlice` and `BoxedStr` goes through `reset()`
and drops the destination's previous range exactly when its length is
nonzero. -/
theorem C10_move_assign_drop_policy
    (b1 b2 : OptionBox) (s1 s2 : BoxedSlice) (t1 t2 : BoxedStr) :
    (OptionBox.moveAssign b1 b2).2.2 = []
    ∧ (OptionBox.moveAssign b1 b2).1 = (⟨b2._ptr⟩ : OptionBox)
    ∧ (BoxedSlice.moveAssign s1 s2).2.2
        = (if s1._size > 0 then [(s1._data, s1._size)] else [])
    ∧ (BoxedSlice.moveAssign s1 s2).1 = (⟨s2._data, s2._size⟩ : BoxedSlice)
    ∧ (BoxedStr.moveAssign t1 t2).2.2
        = (if t1._size > 0 then [(t1._data, t1._size)] else [])
    ∧ (BoxedStr.moveAssign t1 t2).1 = (⟨t2._data, t2._size⟩ : BoxedStr) := by
  exact ⟨rfl, rfl, rfl, rfl, rfl, rfl⟩

end ffi_types
